import Mathlib

/-!
Verification of the authentication core of the hungerhub backend.

The development shallowly embeds the security-relevant Python functions of the
repository: `hash_pwd`, `verify_pwd`, `create_access_token` (app/auth.py),
`get_current_user` (fastapi-backend/app/dependencies.py), `signup` and `login`
(app/main.py), and the older fastapi-backend revision of `signup`/`get_email`
(fastapi-backend/app/main.py, fastapi-backend/app/crud.py).

External library primitives (python-jose JWT encode/decode, passlib bcrypt)
are modelled at the level of their documented contracts, with executable Lean
definitions; the repository's own functions are translated line by line.
-/

/-! ## Python dictionaries of JWT claim values -/

/-- A JWT claim value as it occurs in this codebase: either a string (the
`sub` claim) or a UTC instant (the `exp` claim), modelled as a timestamp in
seconds. -/
inductive ClaimVal where
  | str : String → ClaimVal
  | time : Int → ClaimVal
deriving DecidableEq, Repr

/-- A Python dict of claims, as an insertion-ordered association list with
unique keys (dict semantics are enforced by the operations below). -/
abbrev Claims := List (String × ClaimVal)

/-- Python `d.get(k)`: the value stored under `k`, or `None`. -/
def dictGet (d : Claims) (k : String) : Option ClaimVal :=
  match d with
  | [] => none
  | (k2, v) :: rest => if k2 = k then some v else dictGet rest k

/-- Python `d.update({k: v})` restricted to a single key: replaces the value
in place if the key is present, otherwise appends the new entry at the end
(Python dicts preserve insertion order). -/
def dictUpdate (d : Claims) (k : String) (v : ClaimVal) : Claims :=
  if d.any (fun kv => kv.1 == k) then
    d.map (fun kv => if kv.1 == k then (k, v) else kv)
  else d ++ [(k, v)]

/-! ## The python-jose JWT primitive, modelled at contract level

A JWT on the wire is either a structurally well-formed token (a payload with a
signature) or a malformed string.  The HMAC signature is modelled as the pair
of the signing secret and the signed payload: this makes the signature a
function of exactly (secret, payload), so that signature verification succeeds
precisely when the token's signature was produced over the same payload with
the same secret — the contract `jwt.decode` enforces.  The signing algorithm
name is process-wide configuration shared by encode and decode and is elided. -/

/-- The modelled HMAC signature value. -/
abbrev JoseSig := String × Claims

/-- A bearer token as transmitted: either structurally valid or malformed. -/
inductive Wire where
  | valid : Claims → JoseSig → Wire
  | malformed : String → Wire
deriving DecidableEq, Repr

/-- The signature `jose` computes over a serialized payload with the secret. -/
def joseSign (secret : String) (p : Claims) : JoseSig := (secret, p)

/-- Model of `jwt.encode(payload, secret, algorithm)`. -/
def jwtEncode (secret : String) (p : Claims) : Wire :=
  Wire.valid p (joseSign secret p)

/-- The `jose.JWTError` hierarchy: every decode failure is a `JWTError`;
`ExpiredSignatureError` is the subclass raised when `exp` is in the past. -/
inductive JoseError where
  | invalidToken : JoseError
  | expired : JoseError
deriving DecidableEq, Repr

/-- Model of `jwt.decode(token, secret, algorithms=[alg])` at instant `now`:
rejects a malformed token, rejects a signature that does not match the
configured secret over the token's payload, rejects an `exp` claim in the
past (jose uses strict `exp < now` with zero leeway), and otherwise returns
the payload. -/
def jwtDecode (secret : String) (now : Int) (w : Wire) : Except JoseError Claims :=
  match w with
  | Wire.malformed _ => Except.error JoseError.invalidToken
  | Wire.valid p sig =>
    if sig = joseSign secret p then
      match dictGet p "exp" with
      | some (ClaimVal.time e) =>
          if e < now then Except.error JoseError.expired else Except.ok p
      | some (ClaimVal.str _) => Except.error JoseError.invalidToken
      | none => Except.ok p
    else Except.error JoseError.invalidToken

/-! ## The passlib bcrypt primitive, modelled at contract level

`pwd_context = CryptContext(schemes=["bcrypt"])` (app/auth.py).  A stored
credential string either is identified by passlib as a bcrypt hash — in which
case it embeds a salt and a digest, and the digest is the bcrypt key
derivation of (salt, password) — or it is a string passlib cannot identify,
on which `CryptContext.verify` raises `UnknownHashError`.  The key derivation
is modelled as an injective executable function of the salt and password. -/

/-- A string passlib identifies as a bcrypt hash: embedded salt plus digest. -/
structure BcryptHash where
  salt : Nat
  digest : Nat × List Char
deriving DecidableEq, Repr

/-- Model of bcrypt key derivation: a function of exactly the embedded salt
and the password (injective in the password for a fixed salt, per the
idealized contract of the hash). -/
def bcryptKDF (salt : Nat) (password : String) : Nat × List Char :=
  (salt, password.data)

/-- The space of stored credential strings, partitioned by whether passlib
identifies them as bcrypt hashes. -/
inductive StoredHash where
  | bcrypt : BcryptHash → StoredHash
  | malformed : String → StoredHash
deriving DecidableEq, Repr

/-- The exceptions the passlib layer can raise through this code path. -/
inductive PasslibError where
  | unknownHash : PasslibError
deriving DecidableEq, Repr

/-- `hash_pwd(password)` from app/auth.py: `pwd_context.hash(password)` with
a fresh random salt; the salt drawn for the call is passed explicitly. -/
def hash_pwd (password : String) (salt : Nat) : StoredHash :=
  StoredHash.bcrypt ⟨salt, bcryptKDF salt password⟩

/-- `verify_pwd(plain_password, hashed_password)` from app/auth.py:
`pwd_context.verify(plain_password, hashed_password)`, with no exception
handling in the function body, so passlib's `UnknownHashError` on an
unidentifiable stored hash propagates to the caller. -/
def verify_pwd (plain_password : String) (hashed_password : StoredHash) :
    Except PasslibError Bool :=
  match hashed_password with
  | StoredHash.malformed _ => Except.error PasslibError.unknownHash
  | StoredHash.bcrypt h => Except.ok (bcryptKDF h.salt plain_password == h.digest)

/-! ## Claims C3 and C4: the credential hash contract -/

/-- C3: credential-hash round trip — `verify_pwd(p, hash_pwd(p))` is true for
every password and salt; two calls of `hash_pwd` on the same password with
distinct fresh salts yield distinct hashes; and verification of a wrong
password against a stored hash fails. -/
theorem C3_credential_hash_roundtrip :
    (∀ (p : String) (salt : Nat), verify_pwd p (hash_pwd p salt) = Except.ok true)
  ∧ (∀ (p : String) (s1 s2 : Nat), s1 ≠ s2 → hash_pwd p s1 ≠ hash_pwd p s2)
  ∧ (∀ (p q : String) (salt : Nat), p ≠ q →
      verify_pwd p (hash_pwd q salt) = Except.ok false) := by
  refine ⟨?_, ?_, ?_⟩
  · intro p salt
    simp [verify_pwd, hash_pwd]
  · intro p s1 s2 hne
    simp only [hash_pwd, bcryptKDF, ne_eq, StoredHash.bcrypt.injEq, BcryptHash.mk.injEq]
    intro h
    exact hne h.1
  · intro p q salt hne
    simp only [verify_pwd, hash_pwd, bcryptKDF, Except.ok.injEq]
    simp only [beq_eq_false_iff_ne, ne_eq, Prod.mk.injEq, true_and]
    intro h
    exact hne (String.ext h)

/-- Witness for C3 at concrete inputs: salts 1 and 2 on password "Abcdefg1",
and the wrong password "Xbcdefg1". -/
theorem C3_witness :
    verify_pwd "Abcdefg1" (hash_pwd "Abcdefg1" 1) = Except.ok true
  ∧ hash_pwd "Abcdefg1" 1 ≠ hash_pwd "Abcdefg1" 2
  ∧ verify_pwd "Xbcdefg1" (hash_pwd "Abcdefg1" 7) = Except.ok false :=
  ⟨C3_credential_hash_roundtrip.1 "Abcdefg1" 1,
   C3_credential_hash_roundtrip.2.1 "Abcdefg1" 1 2 (by decide),
   C3_credential_hash_roundtrip.2.2 "Xbcdefg1" "Abcdefg1" 7 (by decide)⟩

/-- C4 counterexample: on a stored string passlib cannot identify as a bcrypt
hash, `verify_pwd` does not return a boolean — the library's
`UnknownHashError` escapes the function, contradicting the claim that
`verify_pwd` never throws and treats malformed hashes as verification
failure. -/
theorem C4_malformed_hash_counterexample :
    verify_pwd "Abcdefg1" (StoredHash.malformed "notahash")
      = Except.error PasslibError.unknownHash := rfl

/-- C4 amended: `verify_pwd` returns a boolean for every stored hash that
passlib identifies as bcrypt; on a stored hash passlib cannot identify, the
`UnknownHashError` raised by `pwd_context.verify` propagates out of
`verify_pwd` (the function body has no exception handler), rather than being
converted into a `false` verification result. -/
theorem C4_verify_pwd_amended :
    (∀ (p : String) (h : BcryptHash),
        ∃ b : Bool, verify_pwd p (StoredHash.bcrypt h) = Except.ok b)
  ∧ (∀ (p raw : String),
        verify_pwd p (StoredHash.malformed raw)
          = Except.error PasslibError.unknownHash) := by
  constructor
  · intro p h
    exact ⟨bcryptKDF h.salt p == h.digest, rfl⟩
  · intro p raw
    rfl

/-! ## `create_access_token` (app/auth.py)

The function receives a Python dict by reference and must not mutate it.  To
make mutation observable, dicts live on an explicit heap (address → dict) and
the caller passes an address.  `datetime.now(timezone.utc)` is the explicit
`now` parameter (a timestamp in seconds); timedeltas are second counts. -/

/-- The heap of claim dictionaries: the dict at address `r` is `heap.getD r []`. -/
abbrev Heap := List Claims

/-- `ACCESS_TOKEN_EXPIRE_MINUTES = int(os.getenv("ACCESS_TOKEN_EXPIRE_MINUTES", 30))`
from app/auth.py, converted to seconds. -/
def ACCESS_TOKEN_EXPIRE_SECONDS : Int := 30 * 60

/-- Python `expires_delta or timedelta(minutes=ACCESS_TOKEN_EXPIRE_MINUTES)`:
`or` takes the right operand when the left is falsy, and a timedelta is falsy
exactly when it is `None` or zero. -/
def timedeltaOrDefault (expires_delta : Option Int) : Int :=
  match expires_delta with
  | none => ACCESS_TOKEN_EXPIRE_SECONDS
  | some d => if d = 0 then ACCESS_TOKEN_EXPIRE_SECONDS else d

/-- `create_access_token(data, expires_delta=None)` from app/auth.py, line by
line with the dict heap explicit (`dataRef` is the caller's reference to
`data`):
`to_encode = data.copy()` allocates a fresh dict at the end of the heap;
`expire = datetime.now(timezone.utc) + (expires_delta or timedelta(minutes=ACCESS_TOKEN_EXPIRE_MINUTES))`;
`to_encode.update({"exp": expire})` mutates the copy in place;
`return jwt.encode(to_encode, SECRET_KEY, algorithm=ALGORITHM)`.
Returns the heap after the call together with the encoded token. -/
def create_access_token (secret : String) (heap : Heap) (dataRef : Nat)
    (expires_delta : Option Int) (now : Int) : Heap × Wire :=
  let to_encode_ref := heap.length
  let heap1 := heap ++ [heap.getD dataRef []]
  let expire := now + timedeltaOrDefault expires_delta
  let heap2 := heap1.set to_encode_ref
    (dictUpdate (heap1.getD to_encode_ref []) "exp" (ClaimVal.time expire))
  (heap2, jwtEncode secret (heap2.getD to_encode_ref []))

/-- `create_access_token` as seen by a caller holding the only dict: the
token produced when `data` is the dict at address 0 of a one-cell heap. -/
def create_access_token_pure (secret : String) (data : Claims)
    (expires_delta : Option Int) (now : Int) : Wire :=
  (create_access_token secret [data] 0 expires_delta now).2

/-! ## Claim C10: `create_access_token` does not mutate its argument -/

/-- C10: for every heap and every valid dict reference `i`, the dict stored at
`i` after `create_access_token` returns is exactly the dict stored there
before the call — in particular the caller's `data` dict is unchanged; the
`exp` entry is written only to the fresh copy. -/
theorem C10_create_access_token_no_mutation (secret : String) (heap : Heap)
    (dataRef : Nat) (expires_delta : Option Int) (now : Int) :
    ∀ i, i < heap.length →
      ((create_access_token secret heap dataRef expires_delta now).1).getD i []
        = heap.getD i [] := by
  intro i hi
  have hne : heap.length ≠ i := by omega
  simp only [create_access_token, List.getD_eq_getElem?_getD]
  rw [List.getElem?_set_ne hne, List.getElem?_append, if_pos hi]

/-- Witness for C10: a caller's dict `{"sub": "alice"}` at address 0 of a
one-cell heap is unchanged by the call. -/
theorem C10_witness :
    ((create_access_token "k" [[("sub", ClaimVal.str "alice")]] 0 none 0).1).getD 0 []
      = [("sub", ClaimVal.str "alice")] := by
  have h := C10_create_access_token_no_mutation "k"
    [[("sub", ClaimVal.str "alice")]] 0 none 0 0 (by decide)
  simpa using h

/-! ## Claim C2: the token service round trip -/

/-- C2 counterexample: a token issued with ttl = 0 verifies successfully
immediately after issuance.  `expires_delta or timedelta(minutes=30)` treats
the zero timedelta as falsy, so the default 30-minute TTL applies and the
expiration instant (1800 seconds after issuance) is not in the past,
contradicting the claim that a token issued with ttl ≤ 0 has a past
expiration and is rejected. -/
theorem C2_ttl_zero_counterexample :
    jwtDecode "k" 0 (create_access_token_pure "k" [("sub", ClaimVal.str "alice")] (some 0) 0)
      = Except.ok [("sub", ClaimVal.str "alice"), ("exp", ClaimVal.time 1800)] := rfl

/-- C2 amended: for every subject `s` and ttl `t > 0`, decoding a token
produced by `create_access_token({"sub": s}, t)` immediately after issuance
yields a payload whose subject claim is `s`; decoding rejects a token whose
signature is not the configured secret's signature over its payload, and a
structurally malformed token; and a token issued with ttl `t < 0` has its
expiration in the past and is rejected as expired.  (For ttl = 0, Python's
`or` treats the zero timedelta as falsy, so the default TTL applies and the
token verifies — see the counterexample.) -/
theorem C2_token_roundtrip_amended :
    (∀ (secret s : String) (t now : Int), 0 < t →
        jwtDecode secret now
            (create_access_token_pure secret [("sub", ClaimVal.str s)] (some t) now)
          = Except.ok [("sub", ClaimVal.str s), ("exp", ClaimVal.time (now + t))])
  ∧ (∀ (secret : String) (p : Claims) (sig : JoseSig) (now : Int),
        sig ≠ joseSign secret p →
        jwtDecode secret now (Wire.valid p sig) = Except.error JoseError.invalidToken)
  ∧ (∀ (secret raw : String) (now : Int),
        jwtDecode secret now (Wire.malformed raw) = Except.error JoseError.invalidToken)
  ∧ (∀ (secret s : String) (t now : Int), t < 0 →
        jwtDecode secret now
            (create_access_token_pure secret [("sub", ClaimVal.str s)] (some t) now)
          = Except.error JoseError.expired) := by
  refine ⟨?_, ?_, ?_, ?_⟩
  · intro secret s t now ht
    have hne : t ≠ 0 := by omega
    simp [create_access_token_pure, create_access_token, timedeltaOrDefault, hne,
      dictUpdate, jwtEncode, jwtDecode, dictGet, joseSign]
    omega
  · intro secret p sig now hsig
    simp [jwtDecode, hsig]
  · intro secret raw now
    rfl
  · intro secret s t now ht
    have hne : t ≠ 0 := by omega
    simp [create_access_token_pure, create_access_token, timedeltaOrDefault, hne,
      dictUpdate, jwtEncode, jwtDecode, dictGet, joseSign]
    omega

/-- Witness for C2 amended, at concrete inputs: ttl 60 round-trips the
subject "alice"; a signature made with secret "other" is rejected under
secret "k"; a malformed token is rejected; ttl −60 is rejected as expired. -/
theorem C2_witness :
    jwtDecode "k" 0 (create_access_token_pure "k" [("sub", ClaimVal.str "alice")] (some 60) 0)
        = Except.ok [("sub", ClaimVal.str "alice"), ("exp", ClaimVal.time 60)]
  ∧ jwtDecode "k" 0 (Wire.valid [("sub", ClaimVal.str "alice")]
        (joseSign "other" [("sub", ClaimVal.str "alice")]))
        = Except.error JoseError.invalidToken
  ∧ jwtDecode "k" 0 (Wire.malformed "garbage") = Except.error JoseError.invalidToken
  ∧ jwtDecode "k" 0 (create_access_token_pure "k" [("sub", ClaimVal.str "alice")] (some (-60)) 0)
        = Except.error JoseError.expired :=
  ⟨C2_token_roundtrip_amended.1 "k" "alice" 60 0 (by decide),
   C2_token_roundtrip_amended.2.1 "k" [("sub", ClaimVal.str "alice")]
     (joseSign "other" [("sub", ClaimVal.str "alice")]) 0 (by decide),
   C2_token_roundtrip_amended.2.2.1 "k" "garbage" 0,
   C2_token_roundtrip_amended.2.2.2 "k" "alice" (-60) 0 (by decide)⟩

/-! ## The current revision (src/app together with fastapi-backend/app/dependencies.py) -/

/-- `fastapi.HTTPException(status_code, detail)` as raised by the handlers. -/
structure HTTPException where
  status_code : Nat
  detail : String
deriving DecidableEq, Repr

namespace App

/-- The `users` table row (app/models.py): in this revision the `password`
column stores the bcrypt hash produced by `hash_pwd`. -/
structure User where
  id : Nat
  email : String
  password : StoredHash
  first_name : String
  last_name : String
deriving DecidableEq, Repr

/-- `HTTPException(status_code=401, detail="Invalid token")` — the single
exception object `get_current_user` raises in every rejection case. -/
def credentials_exception : HTTPException := ⟨401, "Invalid token"⟩

/-- `db.query(User).filter(User.email == email).first()` where `email` is the
decoded `sub` claim value: the first stored user whose email column equals
it (a non-string claim value equals no email). -/
def find_user_by_email (db : List User) (email : ClaimVal) : Option User :=
  db.find? (fun u => ClaimVal.str u.email == email)

/-- `get_current_user(token, db)` from fastapi-backend/app/dependencies.py:
decode the token (any `JWTError` → `credentials_exception`), read the `sub`
claim (`None` → `credentials_exception`), look the user up by the subject
(no row → `credentials_exception`), otherwise return the user. -/
def get_current_user (secret : String) (now : Int) (token : Wire)
    (db : List User) : Except HTTPException User :=
  match jwtDecode secret now token with
  | Except.error _ => Except.error credentials_exception
  | Except.ok payload =>
    match dictGet payload "sub" with
    | none => Except.error credentials_exception
    | some email =>
      match find_user_by_email db email with
      | none => Except.error credentials_exception
      | some user => Except.ok user

/-- Request body of `POST /login` (schema `LoginUser`, app/schemas.py). -/
structure LoginUser where
  email : String
  password : String
deriving DecidableEq, Repr

/-- Request body of `POST /signup` (schema `CreateUser`, app/schemas.py). -/
structure CreateUser where
  email : String
  password : String
  first_name : String
  last_name : String
deriving DecidableEq, Repr

/-- The dict returned by the `login` handler on success. -/
structure TokenResponse where
  access_token : Wire
  token_type : String
deriving DecidableEq, Repr

/-- What an unhandled request can produce in this revision: a raised
`HTTPException` (mapped to its status code), an uncaught passlib error, or an
uncaught database error escaping the handler. -/
inductive AppError where
  | http : HTTPException → AppError
  | passlibUncaught : PasslibError → AppError
  | dbUnhandled : String → AppError
deriving DecidableEq, Repr

/-- `login(user, db)` from app/main.py: presence check on email/password,
then `db.query(User).filter(User.email == user.email).first()`, then
`if not existing_user or not verify_pwd(user.password, existing_user.password)`
→ one and the same 400 response; otherwise
`create_access_token(data={"sub": existing_user.email})` and the bearer
response.  A passlib exception inside `verify_pwd` is not caught. -/
def login (secret : String) (now : Int) (db : List User) (user : LoginUser) :
    Except AppError TokenResponse :=
  if user.email = "" ∨ user.password = "" then
    Except.error (AppError.http ⟨400, "Email and password are required."⟩)
  else
    match db.find? (fun u => u.email == user.email) with
    | none =>
      Except.error (AppError.http ⟨400, "Incorrect email or password. Please try again."⟩)
    | some existing_user =>
      match verify_pwd user.password existing_user.password with
      | Except.error e => Except.error (AppError.passlibUncaught e)
      | Except.ok false =>
        Except.error (AppError.http ⟨400, "Incorrect email or password. Please try again."⟩)
      | Except.ok true =>
        Except.ok ⟨create_access_token_pure secret
          [("sub", ClaimVal.str existing_user.email)] none now, "bearer"⟩

end App

/-- The subject claim carried by a structurally valid token, if any. -/
def wireSubject (w : Wire) : Option String :=
  match w with
  | Wire.valid p _ =>
    match dictGet p "sub" with
    | some (ClaimVal.str s) => some s
    | _ => none
  | Wire.malformed _ => none

/-! ## Claim C1: the auth dependency -/

/-- C1: `get_current_user` rejects with one and the same 401 exception
("Invalid token") whenever token verification fails, whenever the decoded
payload has no `sub` claim, and whenever no stored user matches the subject;
and in the remaining case it returns exactly the stored user found by the
subject lookup, whose email equals the subject claim. -/
theorem C1_get_current_user_contract (secret : String) (now : Int)
    (token : Wire) (db : List App.User) :
    (∀ err, jwtDecode secret now token = Except.error err →
        App.get_current_user secret now token db
          = Except.error App.credentials_exception)
  ∧ (∀ p, jwtDecode secret now token = Except.ok p → dictGet p "sub" = none →
        App.get_current_user secret now token db
          = Except.error App.credentials_exception)
  ∧ (∀ p v, jwtDecode secret now token = Except.ok p →
        dictGet p "sub" = some v → App.find_user_by_email db v = none →
        App.get_current_user secret now token db
          = Except.error App.credentials_exception)
  ∧ (∀ p v u, jwtDecode secret now token = Except.ok p →
        dictGet p "sub" = some v → App.find_user_by_email db v = some u →
        App.get_current_user secret now token db = Except.ok u
          ∧ ClaimVal.str u.email = v)
  ∧ (∀ u, App.get_current_user secret now token db = Except.ok u →
        ∃ p, jwtDecode secret now token = Except.ok p
          ∧ dictGet p "sub" = some (ClaimVal.str u.email)
          ∧ App.find_user_by_email db (ClaimVal.str u.email) = some u) := by
  refine ⟨?_, ?_, ?_, ?_, ?_⟩
  · intro err h
    simp [App.get_current_user, h]
  · intro p h hsub
    simp [App.get_current_user, h, hsub]
  · intro p v h hsub hfind
    simp [App.get_current_user, h, hsub, hfind]
  · intro p v u h hsub hfind
    refine ⟨by simp [App.get_current_user, h, hsub, hfind], ?_⟩
    have hp := List.find?_some hfind
    simpa [beq_iff_eq] using hp
  · intro u hok
    cases hdec : jwtDecode secret now token with
    | error e => simp [App.get_current_user, hdec] at hok
    | ok p =>
      cases hsub : dictGet p "sub" with
      | none => simp [App.get_current_user, hdec, hsub] at hok
      | some v =>
        cases hfind : App.find_user_by_email db v with
        | none => simp [App.get_current_user, hdec, hsub, hfind] at hok
        | some w =>
          have hw : w = u := by
            simpa [App.get_current_user, hdec, hsub, hfind] using hok
          subst hw
          have hv : ClaimVal.str w.email = v := by
            simpa [beq_iff_eq] using List.find?_some hfind
          subst hv
          exact ⟨p, rfl, hsub, hfind⟩

/-- Witness for C1 at a concrete input: a valid token for "a@b.c" resolves to
the stored user with that email, via the success clause of the contract. -/
theorem C1_witness :
    App.get_current_user "k" 0 (jwtEncode "k" [("sub", ClaimVal.str "a@b.c")])
        [⟨1, "a@b.c", hash_pwd "Abcdefg1" 3, "A", "B"⟩]
      = Except.ok ⟨1, "a@b.c", hash_pwd "Abcdefg1" 3, "A", "B"⟩ :=
  (C1_get_current_user_contract "k" 0
      (jwtEncode "k" [("sub", ClaimVal.str "a@b.c")])
      [⟨1, "a@b.c", hash_pwd "Abcdefg1" 3, "A", "B"⟩]).2.2.2.1
    [("sub", ClaimVal.str "a@b.c")] (ClaimVal.str "a@b.c")
    ⟨1, "a@b.c", hash_pwd "Abcdefg1" 3, "A", "B"⟩
    (by rfl) (by rfl) (by rfl) |>.1

/-! ## Claim C5: the login contract -/

/-- C5: with email and password present, `login` rejects with one and the
same 400 response ("Incorrect email or password. Please try again.") both
when the email matches no stored user and when password verification against
the stored hash returns false; and when both checks pass it returns
`{access_token, token_type="bearer"}` where the access token's subject claim
is the matched user's email. -/
theorem C5_login_contract (secret : String) (now : Int) (db : List App.User)
    (user : App.LoginUser) (he : user.email ≠ "") (hp : user.password ≠ "") :
    (db.find? (fun u => u.email == user.email) = none →
        App.login secret now db user = Except.error (App.AppError.http
          ⟨400, "Incorrect email or password. Please try again."⟩))
  ∧ (∀ ex, db.find? (fun u => u.email == user.email) = some ex →
        verify_pwd user.password ex.password = Except.ok false →
        App.login secret now db user = Except.error (App.AppError.http
          ⟨400, "Incorrect email or password. Please try again."⟩))
  ∧ (∀ ex, db.find? (fun u => u.email == user.email) = some ex →
        verify_pwd user.password ex.password = Except.ok true →
        ∃ tok, App.login secret now db user = Except.ok ⟨tok, "bearer"⟩
          ∧ wireSubject tok = some ex.email) := by
  refine ⟨?_, ?_, ?_⟩
  · intro hfind
    simp [App.login, he, hp, hfind]
  · intro ex hfind hver
    simp [App.login, he, hp, hfind, hver]
  · intro ex hfind hver
    refine ⟨create_access_token_pure secret
      [("sub", ClaimVal.str ex.email)] none now, ?_, ?_⟩
    · simp [App.login, he, hp, hfind, hver]
    · simp [create_access_token_pure, create_access_token, dictUpdate,
        jwtEncode, wireSubject, dictGet]

/-- Witness for C5 at a concrete input: login with the correct password
against a one-user database returns a bearer token whose subject is the
user's email. -/
theorem C5_witness :
    ∃ tok, App.login "k" 0 [⟨1, "a@b.c", hash_pwd "Abcdefg1" 3, "A", "B"⟩]
        ⟨"a@b.c", "Abcdefg1"⟩ = Except.ok ⟨tok, "bearer"⟩
      ∧ wireSubject tok = some "a@b.c" :=
  (C5_login_contract "k" 0 [⟨1, "a@b.c", hash_pwd "Abcdefg1" 3, "A", "B"⟩]
      ⟨"a@b.c", "Abcdefg1"⟩ (by decide) (by decide)).2.2
    ⟨1, "a@b.c", hash_pwd "Abcdefg1" 3, "A", "B"⟩ (by rfl) (by rfl)

/-! ## `signup` (app/main.py) -/

/-- Python `re.search(r"\d", s)` succeeding: some character of `s` is a digit. -/
def re_search_digit (s : String) : Bool := s.data.any (fun c => c.isDigit)

/-- Python `re.search(r"[A-Z]", s)` succeeding. -/
def re_search_upper (s : String) : Bool := s.data.any (fun c => 'A' ≤ c && c ≤ 'Z')

/-- Python `re.search(r"[a-z]", s)` succeeding. -/
def re_search_lower (s : String) : Bool := s.data.any (fun c => 'a' ≤ c && c ≤ 'z')

namespace App

/-- Whether `db.commit()` for the pending insert returns normally or surfaces
the persistence layer's email-uniqueness violation (the race where a
concurrent signup inserted the same email after the pre-check). -/
inductive CommitOutcome where
  | success : CommitOutcome
  | integrityError : CommitOutcome
deriving DecidableEq, Repr

/-- `signup(user, db)` from app/main.py, line by line: the four validation
checks (presence, "@" in email, password length, password character classes)
each raising a 422; the duplicate-email pre-check raising a 400; then
`hash_pwd`, construction of the `User` row (`id` assigned by the database,
passed as `newId`), `db.add`, `db.commit`, `db.refresh`.  There is no
exception handler around the commit, so an `IntegrityError` surfaced there
escapes the handler unhandled. -/
def signup (db : List User) (user : CreateUser) (salt : Nat) (newId : Nat)
    (commit : CommitOutcome) : Except AppError User :=
  if user.email = "" ∨ user.password = "" ∨ user.first_name = "" ∨ user.last_name = "" then
    Except.error (AppError.http ⟨422, "Email, password, and name are required."⟩)
  else if user.email.data.contains '@' = false then
    Except.error (AppError.http
      ⟨422, "Invalid email address. Please provide a valid email address."⟩)
  else if user.password.length < 8 then
    Except.error (AppError.http ⟨422, "Password must be at least 8 characters."⟩)
  else if re_search_digit user.password = false ∨ re_search_upper user.password = false
      ∨ re_search_lower user.password = false then
    Except.error (AppError.http
      ⟨422, "Password must contain at least one lowercase letter, uppercase letter, and number."⟩)
  else
    match db.find? (fun u => u.email == user.email) with
    | some _ =>
      Except.error (AppError.http ⟨400, "Email already registered in Spark! Bytes."⟩)
    | none =>
      let hashed_password := hash_pwd user.password salt
      let new_user : User :=
        ⟨newId, user.email, hashed_password, user.first_name, user.last_name⟩
      match commit with
      | CommitOutcome.success => Except.ok new_user
      | CommitOutcome.integrityError => Except.error (AppError.dbUnhandled "IntegrityError")

end App

/-- The validation condition exactly as the specification words it, for
comparison against the behaviour of `App.signup`: any of the four fields
missing/empty, or the email without an "@", or the password shorter than 8,
or the password lacking a lowercase letter, an uppercase letter, or a digit. -/
def specValidationFailure (user : App.CreateUser) : Prop :=
  user.email = "" ∨ user.password = "" ∨ user.first_name = "" ∨ user.last_name = ""
  ∨ user.email.data.contains '@' = false
  ∨ user.password.length < 8
  ∨ re_search_lower user.password = false
  ∨ re_search_upper user.password = false
  ∨ re_search_digit user.password = false

instance (user : App.CreateUser) : Decidable (specValidationFailure user) := by
  unfold specValidationFailure
  infer_instance

/-! ## Claim C6: signup validation -/

/-- C6: `signup` rejects with a 422 exactly when the specification's
validation condition holds, and when it holds the outcome is the same for
every database state and commit outcome — the rejection happens before any
duplicate check or persistence; a request passing every check is never
rejected with a 422. -/
theorem C6_signup_validation (db : List App.User) (user : App.CreateUser)
    (salt newId : Nat) (commit : App.CommitOutcome) :
    ((∃ d, App.signup db user salt newId commit
        = Except.error (App.AppError.http ⟨422, d⟩)) ↔ specValidationFailure user)
  ∧ (specValidationFailure user →
      ∀ (db2 : List App.User) (commit2 : App.CommitOutcome),
        App.signup db user salt newId commit = App.signup db2 user salt newId commit2) := by
  constructor
  · constructor
    · rintro ⟨d, hd⟩
      by_cases h1 : user.email = "" ∨ user.password = "" ∨ user.first_name = ""
          ∨ user.last_name = ""
      · unfold specValidationFailure; tauto
      by_cases h2 : user.email.data.contains '@' = false
      · unfold specValidationFailure; tauto
      by_cases h3 : user.password.length < 8
      · unfold specValidationFailure; tauto
      by_cases h4 : re_search_digit user.password = false
          ∨ re_search_upper user.password = false ∨ re_search_lower user.password = false
      · unfold specValidationFailure; tauto
      exfalso
      simp only [App.signup, if_neg h1, if_neg h2, if_neg h3, if_neg h4] at hd
      cases hfind : db.find? (fun u => u.email == user.email) with
      | some w =>
        rw [hfind] at hd
        simp only [Except.error.injEq, App.AppError.http.injEq,
          HTTPException.mk.injEq] at hd
        exact absurd hd.1 (by decide)
      | none =>
        rw [hfind] at hd
        cases commit with
        | success => simp at hd
        | integrityError => simp at hd
    · intro hspec
      by_cases h1 : user.email = "" ∨ user.password = "" ∨ user.first_name = ""
          ∨ user.last_name = ""
      · exact ⟨_, by rw [App.signup.eq_def, if_pos h1]⟩
      by_cases h2 : user.email.data.contains '@' = false
      · exact ⟨_, by rw [App.signup.eq_def, if_neg h1, if_pos h2]⟩
      by_cases h3 : user.password.length < 8
      · exact ⟨_, by rw [App.signup.eq_def, if_neg h1, if_neg h2, if_pos h3]⟩
      by_cases h4 : re_search_digit user.password = false
          ∨ re_search_upper user.password = false ∨ re_search_lower user.password = false
      · exact ⟨_, by rw [App.signup.eq_def, if_neg h1, if_neg h2, if_neg h3, if_pos h4]⟩
      exfalso
      unfold specValidationFailure at hspec
      tauto
  · intro hspec db2 commit2
    by_cases h1 : user.email = "" ∨ user.password = "" ∨ user.first_name = ""
        ∨ user.last_name = ""
    · rw [App.signup.eq_def, App.signup.eq_def, if_pos h1, if_pos h1]
    by_cases h2 : user.email.data.contains '@' = false
    · rw [App.signup.eq_def, App.signup.eq_def, if_neg h1, if_neg h1, if_pos h2, if_pos h2]
    by_cases h3 : user.password.length < 8
    · rw [App.signup.eq_def, App.signup.eq_def, if_neg h1, if_neg h1, if_neg h2, if_neg h2,
        if_pos h3, if_pos h3]
    by_cases h4 : re_search_digit user.password = false
        ∨ re_search_upper user.password = false ∨ re_search_lower user.password = false
    · rw [App.signup.eq_def, App.signup.eq_def, if_neg h1, if_neg h1, if_neg h2, if_neg h2,
        if_neg h3, if_neg h3, if_pos h4, if_pos h4]
    exfalso
    unfold specValidationFailure at hspec
    tauto

/-- Witness for C6 at concrete inputs, echoing the specification's examples:
password "abcdefg1" (no uppercase) is rejected with a 422 whatever the
database holds, and password "short1A" (length 7) likewise; the valid request
("user@example.com", "Abcdefg1", "A", "B") is not rejected with a 422. -/
theorem C6_witness :
    (∃ d, App.signup [] ⟨"user@example.com", "abcdefg1", "A", "B"⟩ 3 1
        App.CommitOutcome.success = Except.error (App.AppError.http ⟨422, d⟩))
  ∧ (∃ d, App.signup [] ⟨"user@example.com", "short1A", "A", "B"⟩ 3 1
        App.CommitOutcome.success = Except.error (App.AppError.http ⟨422, d⟩))
  ∧ ¬ (∃ d, App.signup [] ⟨"user@example.com", "Abcdefg1", "A", "B"⟩ 3 1
        App.CommitOutcome.success = Except.error (App.AppError.http ⟨422, d⟩)) :=
  ⟨(C6_signup_validation [] ⟨"user@example.com", "abcdefg1", "A", "B"⟩ 3 1
      App.CommitOutcome.success).1.mpr (by decide),
   (C6_signup_validation [] ⟨"user@example.com", "short1A", "A", "B"⟩ 3 1
      App.CommitOutcome.success).1.mpr (by decide),
   fun hex => absurd ((C6_signup_validation [] ⟨"user@example.com", "Abcdefg1", "A", "B"⟩
      3 1 App.CommitOutcome.success).1.mp hex) (by decide)⟩

/-! ## Claim C7: the signup response never carries the password hash -/

namespace App

/-- The `UserResponse` schema (app/schemas.py via fastapi-backend/app/schemas.py):
the fields FastAPI serializes for `response_model=UserResponse`. -/
structure UserResponse where
  id : Nat
  email : String
  first_name : String
  last_name : String
deriving DecidableEq, Repr

/-- FastAPI's `response_model=UserResponse` filter applied to the ORM `User`
object the handler returns: only the schema's fields are read. -/
def userResponseOf (u : User) : UserResponse :=
  ⟨u.id, u.email, u.first_name, u.last_name⟩

/-- The JSON object FastAPI renders for a `UserResponse`, as key/value pairs. -/
def renderUserResponse (r : UserResponse) : List (String × String) :=
  [("id", toString r.id), ("email", r.email),
   ("first_name", r.first_name), ("last_name", r.last_name)]

end App

/-- C7: the rendered signup response has exactly the keys id, email,
first_name, last_name — in particular no password key; changing the stored
password hash of the returned user does not change the response at all (the
hash does not occur in it); and on every successful signup the rendered
response is built from the request fields and the assigned id only. -/
theorem C7_response_excludes_hash :
    (∀ u : App.User, (App.renderUserResponse (App.userResponseOf u)).map Prod.fst
        = ["id", "email", "first_name", "last_name"])
  ∧ (∀ u : App.User,
        "password" ∉ (App.renderUserResponse (App.userResponseOf u)).map Prod.fst)
  ∧ (∀ (u : App.User) (h1 h2 : StoredHash),
        App.renderUserResponse (App.userResponseOf { u with password := h1 })
          = App.renderUserResponse (App.userResponseOf { u with password := h2 }))
  ∧ (∀ (db : List App.User) (user : App.CreateUser) (salt newId : Nat)
        (commit : App.CommitOutcome) (nu : App.User),
        App.signup db user salt newId commit = Except.ok nu →
        App.renderUserResponse (App.userResponseOf nu)
          = [("id", toString newId), ("email", user.email),
             ("first_name", user.first_name), ("last_name", user.last_name)]) := by
  refine ⟨?_, ?_, ?_, ?_⟩
  · intro u
    rfl
  · intro u
    simp [App.renderUserResponse, App.userResponseOf]
  · intro u h1 h2
    rfl
  · intro db user salt newId commit nu h
    unfold App.signup at h
    split at h
    · simp at h
    split at h
    · simp at h
    split at h
    · simp at h
    split at h
    · simp at h
    split at h
    · simp at h
    split at h
    · have hnu : (⟨newId, user.email, hash_pwd user.password salt,
          user.first_name, user.last_name⟩ : App.User) = nu := by
        simpa using h
      subst hnu
      rfl
    · simp at h

/-- Witness for C7's signup clause at a concrete successful signup. -/
theorem C7_witness :
    App.renderUserResponse (App.userResponseOf
        ⟨1, "user@example.com", hash_pwd "Abcdefg1" 3, "A", "B"⟩)
      = [("id", "1"), ("email", "user@example.com"),
         ("first_name", "A"), ("last_name", "B")] :=
  C7_response_excludes_hash.2.2.2 [] ⟨"user@example.com", "Abcdefg1", "A", "B"⟩ 3 1
    App.CommitOutcome.success ⟨1, "user@example.com", hash_pwd "Abcdefg1" 3, "A", "B"⟩
    (by rfl)

/-! ## Claim C8: the duplicate-email race at commit time -/

/-- C8: when the persistence layer surfaces the email-uniqueness violation at
commit time (both concurrent signups passed the pre-check), `signup` does not
produce the 400 conflict response of the pre-check path: the `IntegrityError`
escapes the handler unhandled, because the code has no exception handler
around `db.commit()`.  Evaluated at the specification's own example request
against an empty database. -/
theorem C8_race_unhandled :
    App.signup [] ⟨"user@example.com", "Abcdefg1", "A", "B"⟩ 7 1
        App.CommitOutcome.integrityError
      = Except.error (App.AppError.dbUnhandled "IntegrityError")
  ∧ App.signup [] ⟨"user@example.com", "Abcdefg1", "A", "B"⟩ 7 1
        App.CommitOutcome.integrityError
      ≠ Except.error (App.AppError.http
          ⟨400, "Email already registered in Spark! Bytes."⟩) := by
  refine ⟨rfl, fun h => ?_⟩
  have key : (Except.error (App.AppError.dbUnhandled "IntegrityError") :
        Except App.AppError App.User)
      = Except.error (App.AppError.http
          ⟨400, "Email already registered in Spark! Bytes."⟩) := h
  simp at key

/-! ## The fastapi-backend revision (src/fastapi-backend/app) -/

namespace FB

/-- The `users` table row (fastapi-backend/app/models.py): in this revision
the `password` column stores the supplied password string unhashed; the name
columns are nullable and `create_user` leaves them unset. -/
structure User where
  id : Nat
  email : String
  password : String
  first_name : Option String
  last_name : Option String
deriving DecidableEq, Repr

/-- Request body of `POST /signup` (schema `CreateUser`,
fastapi-backend/app/schemas.py). -/
structure CreateUser where
  email : String
  password : String
  first_name : String
  last_name : String
deriving DecidableEq, Repr

/-- `get_email(db, email, password)` from fastapi-backend/app/crud.py:
`db.query(User).filter(User.email == email, User.password == password).first()`
— the first row matching BOTH the email and the password. -/
def get_email (db : List User) (email password : String) : Option User :=
  db.find? (fun u => u.email == email && u.password == password)

/-- `create_user(db, user)` from fastapi-backend/app/crud.py:
`models.User(email=user.email, password=user.password)` (name columns left
unset), `db.add`, `db.commit`, `db.refresh`; `id` is database-assigned and
passed as `newId`.  Returns the database after the insert and the new row. -/
def create_user (db : List User) (user : CreateUser) (newId : Nat) :
    List User × User :=
  let db_user : User := ⟨newId, user.email, user.password, none, none⟩
  (db ++ [db_user], db_user)

/-- `signup(user, db)` from fastapi-backend/app/main.py: presence check on
email and password (400), the duplicate pre-check via `get_email` with the
supplied email AND password (400 conflict), otherwise `create_user`. -/
def signup (db : List User) (user : CreateUser) (newId : Nat) :
    Except HTTPException (List User × User) :=
  if user.email = "" ∨ user.password = "" then
    Except.error ⟨400, "Email and password are required."⟩
  else
    match get_email db user.email user.password with
    | some _ => Except.error ⟨400, "Email already registered in Spark! Bytes."⟩
    | none => Except.ok (create_user db user newId)

end FB

/-! ## Claim C9: the fastapi-backend duplicate pre-check is password-sensitive -/

/-- C9: in the fastapi-backend revision, `get_email` matches a stored user
only when both the stored email and the stored password equal the supplied
values; consequently a second signup with an already-registered email but a
different password passes the pre-check without a conflict-failure and
proceeds to insert the new row. -/
theorem C9_precheck_needs_email_and_password (db : List FB.User)
    (user : FB.CreateUser) (newId : Nat)
    (_hreg : ∃ ex ∈ db, ex.email = user.email)
    (hdiff : ∀ v ∈ db, v.email = user.email → v.password ≠ user.password)
    (he : user.email ≠ "") (hp : user.password ≠ "") :
    (∀ v, FB.get_email db user.email user.password = some v →
        v.email = user.email ∧ v.password = user.password)
  ∧ FB.signup db user newId
      = Except.ok (db ++ [⟨newId, user.email, user.password, none, none⟩],
          (⟨newId, user.email, user.password, none, none⟩ : FB.User)) := by
  constructor
  · intro v hv
    have hp2 := List.find?_some hv
    simp only [Bool.and_eq_true, beq_iff_eq] at hp2
    exact hp2
  · have hnone : FB.get_email db user.email user.password = none := by
      unfold FB.get_email
      rw [List.find?_eq_none]
      intro v hv
      simp only [Bool.and_eq_true, beq_iff_eq, not_and]
      intro hemail
      exact hdiff v hv hemail
    simp [FB.signup, he, hp, hnone, FB.create_user]

/-- Witness for C9 at a concrete input: "a@b.c" is registered with password
"pw1"; a second signup as "a@b.c" with password "pw2" is not rejected as a
conflict and inserts a second row with the same email. -/
theorem C9_witness :
    FB.signup [⟨1, "a@b.c", "pw1", none, none⟩] ⟨"a@b.c", "pw2", "A", "B"⟩ 2
      = Except.ok ([⟨1, "a@b.c", "pw1", none, none⟩, ⟨2, "a@b.c", "pw2", none, none⟩],
          (⟨2, "a@b.c", "pw2", none, none⟩ : FB.User)) := by
  have h := (C9_precheck_needs_email_and_password
      [⟨1, "a@b.c", "pw1", none, none⟩] ⟨"a@b.c", "pw2", "A", "B"⟩ 2
      ⟨⟨1, "a@b.c", "pw1", none, none⟩, by simp, rfl⟩
      (by intro v hv hemail; simp at hv; subst hv; decide)
      (by decide) (by decide)).2
  simpa using h
